import Mathlib

/-!
A shallow embedding of `sabio-monitor.py`, the measurement-and-assembly
pipeline of the SabioClientSetup repository, together with theorems settling
the specification claims about it.

Floats are modelled as rationals (`ℚ`); Python `None`/optional dict keys as
`Option`; the external world (ping subprocess, speedtest library, geolocation
HTTP response) as explicit oracle inputs, so that every control path of the
source is a function of those inputs.
-/

namespace Sabio

/-- `AGENT_VERSION = "1.0.0"` (module constant). -/
def AGENT_VERSION : String := "1.0.0"

/-- `CONTRACTED_DOWNLOAD_MBPS = 100.0` (module constant). -/
def CONTRACTED_DOWNLOAD_MBPS : ℚ := 100

/-- `CONTRACTED_UPLOAD_MBPS = 20.0` (module constant). -/
def CONTRACTED_UPLOAD_MBPS : ℚ := 20

/-! ## Python `round(x, 2)`

Python rounds to the nearest multiple of 1/100, ties to the even multiple
(round-half-even). -/

/-- Round a rational to the nearest integer, ties to even. -/
def roundHalfEven (q : ℚ) : ℤ :=
  let f : ℤ := ⌊q⌋
  if q - f < 1/2 then f
  else if 1/2 < q - f then f + 1
  else if f % 2 = 0 then f else f + 1

/-- Python `round(x, 2)`: round to two decimal places, ties to even. -/
def round2 (q : ℚ) : ℚ := (roundHalfEven (q * 100) : ℚ) / 100

/-! ## Ping Prober — `check_ping(host, retries=3, delay=2)`

One loop iteration either raises (`CalledProcessError` / `TimeoutExpired`),
modelled by `PingAttempt.err`, or completes with the ping tool's output, from
which a loss percentage may or may not be parsed (`PingAttempt.ok loss`,
`loss = none` when the regex finds no loss figure in the output). -/

/-- Outcome of a single ping subprocess invocation. -/
inductive PingAttempt where
  | err : PingAttempt
  | ok : Option ℚ → PingAttempt
deriving DecidableEq

/-- What `check_ping` returns, plus observables of the loop: how many
attempts ran and how many `time.sleep(delay)` calls happened. -/
structure PingResult where
  reachable : Bool
  packet_loss : ℚ
  attempts_used : ℕ
  sleeps : ℕ
deriving DecidableEq

/-- The `for attempt in range(retries)` loop of `check_ping`.
`attempt` is the current index, `remaining` the iterations left,
`pl` the current value of the `packet_loss` variable. On a completed
attempt it returns `True` with the parsed loss (or `pl` unchanged when the
output did not parse); on an exception it sleeps unless this was the final
attempt, and retries; after the loop it returns `False, packet_loss`. -/
def check_ping_go (outcomes : ℕ → PingAttempt) (attempt remaining : ℕ)
    (pl : ℚ) (sleeps : ℕ) : PingResult :=
  match remaining with
  | 0 => ⟨false, pl, attempt, sleeps⟩
  | r + 1 =>
    match outcomes attempt with
    | .ok loss => ⟨true, loss.getD pl, attempt + 1, sleeps⟩
    | .err =>
        check_ping_go outcomes (attempt + 1) r pl
          (sleeps + if r = 0 then 0 else 1)

/-- `check_ping`: `packet_loss` starts at 100.0 (default to 100% loss). -/
def check_ping (outcomes : ℕ → PingAttempt) (retries : ℕ := 3) : PingResult :=
  check_ping_go outcomes 0 retries 100 0

/-! ## Bandwidth Prober — `run_speed_test(retries=3, delay=3)` -/

/-- What one successful speedtest attempt yields, in the library's native
units: `download_bps`/`upload_bps` in bits per second (the code divides by
1 000 000), `jitter = none` when `st.results` has no `jitter` attribute
(the code's `getattr(st.results, 'jitter', 0.0)` then yields `0.0`). -/
structure SpeedMeasurement where
  download_bps : ℚ
  upload_bps : ℚ
  ping : ℚ
  ip : String
  jitter : Option ℚ
  duration : ℚ
  server_name : String
  server_host : String
deriving DecidableEq

/-- The dict returned by a successful `run_speed_test`. -/
structure SpeedData where
  download_mbps : ℚ
  upload_mbps : ℚ
  ping_ms : ℚ
  ip : String
  jitter_ms : ℚ
  test_duration_sec : ℚ
  test_server : String
  test_server_ip : String
deriving DecidableEq

/-- Result of `run_speed_test` plus loop observables. `outcome = none`
models the `retries = 0` fall-through (Python returns `None`);
`some (.error msg)` models the terminal `raise Exception(msg)`. -/
structure SpeedResult where
  outcome : Option (Except String SpeedData)
  attempts_used : ℕ
  sleeps : ℕ

/-- Build the success dict from one measurement: bps → Mbps conversion and
the `getattr` jitter default happen here, exactly as in the source. -/
def speedDataOf (m : SpeedMeasurement) : SpeedData :=
  { download_mbps := m.download_bps / 1000000
    upload_mbps := m.upload_bps / 1000000
    ping_ms := m.ping
    ip := m.ip
    jitter_ms := m.jitter.getD 0
    test_duration_sec := m.duration
    test_server := m.server_name
    test_server_ip := m.server_host }

/-- The `for attempt in range(retries)` loop of `run_speed_test`: a failed
attempt sleeps and retries unless it was the last, in which case the loop
raises `Exception(f"Speed test failed after {retries} attempts: {e}")`. -/
def run_speed_test_go (outcomes : ℕ → Except String SpeedMeasurement)
    (attempt remaining sleeps retries : ℕ) : SpeedResult :=
  match remaining with
  | 0 => ⟨none, attempt, sleeps⟩
  | r + 1 =>
    match outcomes attempt with
    | .ok m => ⟨some (.ok (speedDataOf m)), attempt + 1, sleeps⟩
    | .error e =>
        if r = 0 then
          ⟨some (.error ("Speed test failed after " ++ toString retries
            ++ " attempts: " ++ e)), attempt + 1, sleeps⟩
        else
          run_speed_test_go outcomes (attempt + 1) r (sleeps + 1) retries

/-- `run_speed_test`. -/
def run_speed_test (outcomes : ℕ → Except String SpeedMeasurement)
    (retries : ℕ := 3) : SpeedResult :=
  run_speed_test_go outcomes 0 retries 0 retries

/-! ## Location Resolver — `get_location()` -/

/-- The parsed JSON body of the geolocation response, as the code probes it:
`loc = none` models a body with no `"loc"` key; `loc = some none` a `"loc"`
value on which `split(",")`/`float()` raises (caught by the `except`);
`loc = some (some (lat, lon))` a parsable one. `city`/`region`/`org` are
`none` when the key is missing (`data.get(key, "")`). -/
structure GeoResponse where
  loc : Option (Option (ℚ × ℚ))
  city : Option String
  region : Option String
  org : Option String

/-- The dict `get_location` returns. -/
structure LocationInfo where
  latitude : ℚ
  longitude : ℚ
  city : String
  region : String
  org : String
deriving DecidableEq

/-- The zero-valued default returned from the `except` branch. -/
def default_location : LocationInfo :=
  { latitude := 0, longitude := 0, city := "", region := "", org := "" }

/-- `get_location`: the whole body is inside `try`; a failed request
(`resp = none`) or a `"loc"` value that fails to parse both land in the
`except` branch and return the default. A missing `"loc"` key leaves
`(lat, lon) = (0.0, 0.0)` but still reads city/region/org. -/
def get_location (resp : Option GeoResponse) : LocationInfo :=
  match resp with
  | none => default_location
  | some data =>
    match data.loc with
    | some none => default_location
    | some (some (la, lo)) =>
        { latitude := la, longitude := lo, city := data.city.getD ""
          region := data.region.getD "", org := data.org.getD "" }
    | none =>
        { latitude := 0, longitude := 0, city := data.city.getD ""
          region := data.region.getD "", org := data.org.getD "" }

/-! ## SLA Evaluator — `calculate_sla_metrics(download_mbps, upload_mbps)`

The source reads the contracted speeds from module globals; they are passed
here as explicit parameters `cd`, `cu`, and the pipeline instantiates them
with `CONTRACTED_DOWNLOAD_MBPS` / `CONTRACTED_UPLOAD_MBPS`. -/

/-- `(x / contracted) * 100 if contracted > 0 else 0`. -/
def sla_percentage (contracted x : ℚ) : ℚ :=
  if contracted > 0 then x / contracted * 100 else 0

/-- The dict `calculate_sla_metrics` returns. -/
structure SlaData where
  contracted_download_mbps : ℚ
  contracted_upload_mbps : ℚ
  sla_compliance : Bool
  sla_deviation_pct : ℚ
deriving DecidableEq

/-- `calculate_sla_metrics`. -/
def calculate_sla_metrics (cd cu download_mbps upload_mbps : ℚ) : SlaData :=
  let download_percentage := sla_percentage cd download_mbps
  let upload_percentage := sla_percentage cu upload_mbps
  let is_compliant : Bool :=
    decide (download_percentage ≥ 80) && decide (upload_percentage ≥ 80)
  let download_deviation := download_percentage - 100
  let upload_deviation := upload_percentage - 100
  { contracted_download_mbps := cd
    contracted_upload_mbps := cu
    sla_compliance := is_compliant
    sla_deviation_pct := min download_deviation upload_deviation }

/-! ## Site-name derivation — `get_school_name()`

`re.match(r"KE-[A-Z]+-SCH-([A-Z0-9]+)-SPEED\d+", hostname)`: anchored at the
start, trailing characters allowed. Since none of the character classes
contains `-`, the greedy `+` repetitions match exactly the maximal runs and
backtracking never changes the outcome, so the regex is embedded as a
deterministic sequential matcher. `\d`/`[A-Z0-9]` are modelled over ASCII
(hostnames). -/

/-- Strip an expected literal off the front of a character list. -/
def dropLit : List Char → List Char → Option (List Char)
  | [], l => some l
  | _ :: _, [] => none
  | p :: ps, c :: cs => if p = c then dropLit ps cs else none

/-- Maximal run of characters satisfying `p` and the remainder
(the behavior of a greedy `[class]+` followed by a non-class literal). -/
def takeRun (p : Char → Bool) : List Char → List Char × List Char
  | [] => ([], [])
  | c :: cs =>
    if p c then
      let t := takeRun p cs
      (c :: t.1, t.2)
    else ([], c :: cs)

/-- `[A-Z0-9]` (the site-code class). -/
def isCodeChar (c : Char) : Bool := c.isUpper || c.isDigit

/-- The literal `KE-`. -/
def keLit : List Char := ['K', 'E', '-']

/-- The literal `-SCH-`. -/
def schLit : List Char := ['-', 'S', 'C', 'H', '-']

/-- The literal `-SPEED`. -/
def speedLit : List Char := ['-', 'S', 'P', 'E', 'E', 'D']

/-- `re.match(r"KE-[A-Z]+-SCH-([A-Z0-9]+)-SPEED\d+", h)`, returning the
captured group on a match. -/
def hostnameSiteCode (h : List Char) : Option (List Char) :=
  match dropLit keLit h with
  | none => none
  | some r1 =>
    if (takeRun Char.isUpper r1).1 = [] then none else
    match dropLit schLit (takeRun Char.isUpper r1).2 with
    | none => none
    | some r3 =>
      if (takeRun isCodeChar r3).1 = [] then none else
      match dropLit speedLit (takeRun isCodeChar r3).2 with
      | none => none
      | some r5 =>
        if (takeRun Char.isDigit r5).1 = [] then none else
        some (takeRun isCodeChar r3).1

/-- `get_school_name` (with the hostname passed in instead of read from the
OS): `School-<code>` on a regex match, the raw hostname otherwise. -/
def get_school_name (hostname : String) : String :=
  match hostnameSiteCode hostname.data with
  | some code => "School-" ++ String.mk code
  | none => hostname

/-- The naming convention of the source, spelled structurally: the hostname
starts with `KE-`, a nonempty uppercase region code, `-SCH-`, the nonempty
alphanumeric-uppercase site code, `-SPEED`, at least one digit, and then
anything (`re.match` accepts trailing characters). -/
def followsConvention (h code : List Char) : Prop :=
  ∃ region ds rest,
    h = keLit ++ region ++ schLit ++ code ++ speedLit ++ ds ++ rest ∧
    region ≠ [] ∧ (∀ c ∈ region, Char.isUpper c = true) ∧
    code ≠ [] ∧ (∀ c ∈ code, isCodeChar c = true) ∧
    ds ≠ [] ∧ (∀ c ∈ ds, Char.isDigit c = true)

/-! ## Result Assembler — `main()`

All external interactions are inputs of `Env`; the observable output is the
flat row built for the sink (lines 282–310 of the source, with its
`"key" in result` / `result.get(key, default)` accessors) together with the
intermediate `result` dict and whether `run_speed_test` was invoked. -/

/-- The external world and host context of one probe cycle. -/
structure Env where
  hostname : String
  os_version : String
  uptime : ℕ
  timestamp : String
  pingOutcomes : ℕ → PingAttempt
  speedOutcomes : ℕ → Except String SpeedMeasurement
  geoResponse : Option GeoResponse

/-- The `result` dict after the ping/speed branches (before geolocation is
merged in). `Option` fields whose key is set to Python `None` hold `none`;
`sla`, `error_code`, `error_message` are `none` when the branch never adds
the key at all. -/
structure ResultDict where
  ping_success : Bool
  packet_loss_pct : ℚ
  download_mbps : ℚ
  upload_mbps : ℚ
  ping_ms : Option ℚ
  jitter_ms : Option ℚ
  test_duration_sec : ℚ
  test_server : String
  test_server_ip : String
  ip : String
  sla : Option SlaData
  error_code : Option ℤ
  error_message : Option String

/-- The zero-filled error update shared by the `error_code = 1` and
`error_code = 2` branches of `main`. -/
def errorDict (pr : PingResult) (code : ℤ) (msg : String) : ResultDict :=
  { ping_success := pr.reachable
    packet_loss_pct := pr.packet_loss
    download_mbps := 0
    upload_mbps := 0
    ping_ms := none
    jitter_ms := none
    test_duration_sec := 0
    test_server := ""
    test_server_ip := ""
    ip := "Unavailable"
    sla := none
    error_code := some code
    error_message := some msg }

/-- The success branch of `main`: merge the speedtest dict, round the five
numeric fields to 2 decimal places, then compute the SLA metrics from the
rounded download/upload. -/
def successDict (pr : PingResult) (sd : SpeedData) : ResultDict :=
  { ping_success := pr.reachable
    packet_loss_pct := pr.packet_loss
    download_mbps := round2 sd.download_mbps
    upload_mbps := round2 sd.upload_mbps
    ping_ms := some (round2 sd.ping_ms)
    jitter_ms := some (round2 sd.jitter_ms)
    test_duration_sec := round2 sd.test_duration_sec
    test_server := sd.test_server
    test_server_ip := sd.test_server_ip
    ip := sd.ip
    sla := some (calculate_sla_metrics CONTRACTED_DOWNLOAD_MBPS
      CONTRACTED_UPLOAD_MBPS (round2 sd.download_mbps) (round2 sd.upload_mbps))
    error_code := none
    error_message := none }

/-- Dispatch on the speedtest outcome inside the reachable branch. A raised
exception is caught and wrapped as `f"Speed test failed: {e}"` with
`error_code = 2`. (The `none` outcome only arises for `retries = 0`, where
Python would raise a `TypeError` from `result.update(None)`, caught by the
same `except` branch; `main` always calls with `retries = 3`.) -/
def reachableDict (pr : PingResult) (sr : SpeedResult) : ResultDict :=
  match sr.outcome with
  | some (.ok sd) => successDict pr sd
  | some (.error e) => errorDict pr 2 ("Speed test failed: " ++ e)
  | none => errorDict pr 2 "Speed test failed: NoneType update"

/-- The flat record handed to the sink (the DataFrame row). -/
structure Row where
  TimestampUtc : String
  DeviceId : String
  SchoolName : String
  AgentVersion : String
  OsVersion : String
  DeviceUptimeSec : ℕ
  PingSuccess : Bool
  DownloadMbps : ℚ
  UploadMbps : ℚ
  PingMs : Option ℚ
  JitterMs : Option ℚ
  PacketLossPct : ℚ
  TestDurationSec : ℚ
  TestServer : String
  TestServerIp : String
  ContractedDownloadMbps : ℚ
  ContractedUploadMbps : ℚ
  SlaCompliance : Bool
  SlaDeviationPct : ℚ
  IpAddress : String
  Latitude : ℚ
  Longitude : ℚ
  City : String
  Region : String
  ISPName : String
  ErrorCode : ℤ
  ErrorMessage : String

/-- Build the sink row from the result dict and geolocation data, mirroring
the source's accessors: `result.get("contracted_download_mbps", 0.0)` etc.
default to 0.0/False when the SLA keys were never added, and
`result.get("error_code", 0)` defaults to 0 on the success path. -/
def buildRow (env : Env) (d : ResultDict) (geo : LocationInfo) : Row :=
  { TimestampUtc := env.timestamp
    DeviceId := env.hostname
    SchoolName := get_school_name env.hostname
    AgentVersion := AGENT_VERSION
    OsVersion := env.os_version
    DeviceUptimeSec := env.uptime
    PingSuccess := d.ping_success
    DownloadMbps := d.download_mbps
    UploadMbps := d.upload_mbps
    PingMs := d.ping_ms
    JitterMs := d.jitter_ms
    PacketLossPct := d.packet_loss_pct
    TestDurationSec := d.test_duration_sec
    TestServer := d.test_server
    TestServerIp := d.test_server_ip
    ContractedDownloadMbps :=
      (match d.sla with | some s => s.contracted_download_mbps | none => 0)
    ContractedUploadMbps :=
      (match d.sla with | some s => s.contracted_upload_mbps | none => 0)
    SlaCompliance :=
      (match d.sla with | some s => s.sla_compliance | none => false)
    SlaDeviationPct :=
      (match d.sla with | some s => s.sla_deviation_pct | none => 0)
    IpAddress := d.ip
    Latitude := geo.latitude
    Longitude := geo.longitude
    City := geo.city
    Region := geo.region
    ISPName := geo.org
    ErrorCode := d.error_code.getD 0
    ErrorMessage := d.error_message.getD "" }

/-- Observable output of one cycle: the row, the intermediate dict, and
whether the Bandwidth Prober was invoked. -/
structure MainOutput where
  row : Row
  dict : ResultDict
  speed_test_invoked : Bool

/-- `main()`: ping gates the speed test; an unreachable ping zero-fills with
`error_code = 1` and never touches `run_speed_test`; geolocation is merged
on every path. -/
def mainRun (env : Env) : MainOutput :=
  let pr := check_ping env.pingOutcomes 3
  if pr.reachable then
    let sr := run_speed_test env.speedOutcomes 3
    let d := reachableDict pr sr
    ⟨buildRow env d (get_location env.geoResponse), d, true⟩
  else
    let d := errorDict pr 1 "No internet connection"
    ⟨buildRow env d (get_location env.geoResponse), d, false⟩

/-! ## Concrete cycles used as witnesses -/

/-- A cycle where every ping attempt raises (host unreachable). -/
def envDown : Env :=
  { hostname := "KE-NBO-SCH-0001-SPEED1", os_version := "Linux 6.1"
    uptime := 3600, timestamp := "2025-09-01T08:00:00Z"
    pingOutcomes := fun _ => .err
    speedOutcomes := fun _ => .error "unused"
    geoResponse := none }

/-- A cycle with a clean first ping and a permanently failing speedtest. -/
def envSpeedFail : Env :=
  { envDown with
    pingOutcomes := fun _ => .ok (some 0)
    speedOutcomes := fun _ => .error "no servers reachable" }

/-- Spec scenario B measurement: 45.32 Mbps down, 9.87 Mbps up (in bits per
second, as the library reports them), with no jitter attribute exposed. -/
def mB : SpeedMeasurement :=
  { download_bps := 45320000, upload_bps := 9870000, ping := 25/2
    ip := "203.0.113.5", jitter := none, duration := 30
    server_name := "Nairobi", server_host := "speed.example.net:8080" }

/-- A fully successful cycle measuring `mB`. -/
def envB : Env :=
  { envDown with
    pingOutcomes := fun _ => .ok (some 0)
    speedOutcomes := fun _ => .ok mB }

/-! ## Helper lemmas -/

/-- Rounding an integer value is the identity. -/
lemma roundHalfEven_intCast (n : ℤ) : roundHalfEven (n : ℚ) = n := by
  simp only [roundHalfEven, Int.floor_intCast, sub_self]
  norm_num

/-- `round2` on a value that is an exact multiple of 1/100. -/
lemma round2_of_mul_eq_intCast (q : ℚ) (n : ℤ) (h : q * 100 = (n : ℚ)) :
    round2 q = (n : ℚ) / 100 := by
  unfold round2
  rw [h, roundHalfEven_intCast]

/-- `calculate_sla_metrics` with positive contracted speeds, written out. -/
lemma calculate_sla_metrics_pos (cd cu d u : ℚ) (hcd : 0 < cd) (hcu : 0 < cu) :
    calculate_sla_metrics cd cu d u =
      { contracted_download_mbps := cd
        contracted_upload_mbps := cu
        sla_compliance :=
          decide (d / cd * 100 ≥ 80) && decide (u / cu * 100 ≥ 80)
        sla_deviation_pct :=
          min (d / cd * 100 - 100) (u / cu * 100 - 100) } := by
  simp [calculate_sla_metrics, sla_percentage, hcd, hcu]

/-- A permanently failing ping loop: `r` remaining iterations all raise, so
the loop runs them all, sleeps between consecutive ones only, and returns
`False` with the threaded `packet_loss` value unchanged. -/
lemma check_ping_go_all_err (outcomes : ℕ → PingAttempt)
    (h : ∀ n, outcomes n = .err) :
    ∀ r a pl s, check_ping_go outcomes a r pl s =
      ⟨false, pl, a + r, s + (r - 1)⟩ := by
  intro r
  induction r with
  | zero => intro a pl s; simp [check_ping_go]
  | succ r ih =>
    intro a pl s
    rw [check_ping_go, h a, ih (a + 1) pl _]
    simp only [PingResult.mk.injEq, true_and]
    constructor
    · omega
    · split <;> omega

/-- If the ping loop reports unreachable, the returned loss is the threaded
(default) `packet_loss` value. -/
lemma check_ping_go_loss_of_unreachable (outcomes : ℕ → PingAttempt) :
    ∀ r a pl s, (check_ping_go outcomes a r pl s).reachable = false →
      (check_ping_go outcomes a r pl s).packet_loss = pl := by
  intro r
  induction r with
  | zero => intro a pl s _; rfl
  | succ r ih =>
    intro a pl s h
    rw [check_ping_go] at h ⊢
    cases he : outcomes a with
    | ok loss => rw [he] at h; simp at h
    | err => rw [he] at h; exact ih _ _ _ h

/-- A permanently failing speedtest loop with at least one iteration left:
all iterations run, sleeps happen between consecutive ones only, and the
loop raises a message naming the retry count and the last cause. -/
lemma run_speed_test_go_all_err (outcomes : ℕ → Except String SpeedMeasurement)
    (h : ∀ n m, outcomes n ≠ .ok m) :
    ∀ r a s R, 1 ≤ r →
      ∃ e, outcomes (a + r - 1) = .error e ∧
        run_speed_test_go outcomes a r s R =
          ⟨some (.error ("Speed test failed after " ++ toString R
            ++ " attempts: " ++ e)), a + r, s + (r - 1)⟩ := by
  intro r
  induction r with
  | zero => intro a s R hr; omega
  | succ r ih =>
    intro a s R _
    cases he : outcomes a with
    | ok m => exact absurd he (h a m)
    | error e =>
      cases r with
      | zero =>
        refine ⟨e, by simpa using he, ?_⟩
        rw [run_speed_test_go, he]
        simp
      | succ r' =>
        obtain ⟨e', he', hrun⟩ := ih (a + 1) (s + 1) R (by omega)
        have hi : a + 1 + (r' + 1) - 1 = a + (r' + 1 + 1) - 1 := by omega
        rw [hi] at he'
        refine ⟨e', he', ?_⟩
        rw [run_speed_test_go, he]
        simp only [Nat.succ_ne_zero, if_false]
        rw [hrun]
        simp only [SpeedResult.mk.injEq, true_and]
        omega

/-- Both branches of `main` build the row from the dict and the geolocation
result the same way. -/
lemma mainRun_row (env : Env) :
    (mainRun env).row = buildRow env (mainRun env).dict
      (get_location env.geoResponse) := by
  cases h : (check_ping env.pingOutcomes 3).reachable <;> simp [mainRun, h]

/-- Reachable ping plus a first-attempt speedtest success yields the success
dict. -/
lemma mainRun_dict_success (env : Env) (m : SpeedMeasurement)
    (hp : (check_ping env.pingOutcomes 3).reachable = true)
    (hm : env.speedOutcomes 0 = .ok m) :
    (mainRun env).dict = successDict (check_ping env.pingOutcomes 3)
      (speedDataOf m) := by
  have hrun : run_speed_test env.speedOutcomes 3 =
      ⟨some (.ok (speedDataOf m)), 1, 0⟩ := by
    rw [run_speed_test, run_speed_test_go, hm]
  simp [mainRun, hp, hrun, reachableDict]

/-- `dropLit` succeeds exactly on lists starting with the literal. -/
lemma dropLit_eq_some (pre : List Char) :
    ∀ l r : List Char, (dropLit pre l = some r ↔ l = pre ++ r) := by
  induction pre with
  | nil => intro l r; simp [dropLit]
  | cons p ps ih =>
    intro l r
    cases l with
    | nil => simp [dropLit]
    | cons c cs =>
      by_cases h : p = c
      · subst h
        simp [dropLit, ih]
      · simp [dropLit, h]
        intro he
        exact absurd he.symm h

/-- `takeRun` on a run of class characters followed by a non-class head
splits exactly at the boundary. -/
lemma takeRun_append_run (p : Char → Bool) :
    ∀ a b : List Char, (∀ c ∈ a, p c = true) →
      (∀ c, b.head? = some c → p c = false) →
      takeRun p (a ++ b) = (a, b) := by
  intro a
  induction a with
  | nil =>
    intro b _ hb
    cases b with
    | nil => rfl
    | cons c cs => simp [takeRun, hb c rfl]
  | cons x xs ih =>
    intro b ha hb
    have hx : p x = true := ha x (List.mem_cons_self x xs)
    simp [takeRun, hx, ih b (fun c hc => ha c (List.mem_cons_of_mem x hc)) hb]

/-- `takeRun` decomposes its input. -/
lemma takeRun_eq_append (p : Char → Bool) :
    ∀ l : List Char, (takeRun p l).1 ++ (takeRun p l).2 = l := by
  intro l
  induction l with
  | nil => rfl
  | cons c cs ih =>
    by_cases h : p c
    · simp [takeRun, h, ih]
    · simp [takeRun, h]

/-- Every character of the run satisfies the class predicate. -/
lemma takeRun_mem (p : Char → Bool) :
    ∀ l : List Char, ∀ c ∈ (takeRun p l).1, p c = true := by
  intro l
  induction l with
  | nil => intro c hc; simp [takeRun] at hc
  | cons x xs ih =>
    intro c hc
    by_cases h : p x
    · simp [takeRun, h] at hc
      rcases hc with rfl | hc
      · exact h
      · exact ih c hc
    · simp [takeRun, h] at hc

/-- The run is nonempty when the head is a class character. -/
lemma takeRun_cons_ne_nil (p : Char → Bool) (c : Char) (l : List Char)
    (h : p c = true) : (takeRun p (c :: l)).1 ≠ [] := by
  simp [takeRun, h]

/-- Completeness of the matcher: a hostname following the naming convention
is accepted, with exactly the convention site code captured. -/
lemma hostnameSiteCode_of_followsConvention (h code : List Char)
    (hc : followsConvention h code) : hostnameSiteCode h = some code := by
  obtain ⟨region, ds, rest, heq, hrne, hrup, hcne, hcch, hdne, hdd⟩ := hc
  subst heq
  have e1 : dropLit keLit
      (keLit ++ region ++ schLit ++ code ++ speedLit ++ ds ++ rest) =
      some (region ++ (schLit ++ (code ++ (speedLit ++ (ds ++ rest))))) := by
    rw [dropLit_eq_some]
    simp [List.append_assoc]
  have e2 : takeRun Char.isUpper
      (region ++ (schLit ++ (code ++ (speedLit ++ (ds ++ rest))))) =
      (region, schLit ++ (code ++ (speedLit ++ (ds ++ rest)))) := by
    apply takeRun_append_run _ _ _ hrup
    intro c hc2
    simp [schLit] at hc2
    rw [← hc2]
    rfl
  have e3 : dropLit schLit (schLit ++ (code ++ (speedLit ++ (ds ++ rest)))) =
      some (code ++ (speedLit ++ (ds ++ rest))) :=
    (dropLit_eq_some _ _ _).mpr rfl
  have e4 : takeRun isCodeChar (code ++ (speedLit ++ (ds ++ rest))) =
      (code, speedLit ++ (ds ++ rest)) := by
    apply takeRun_append_run _ _ _ hcch
    intro c hc2
    simp [speedLit] at hc2
    rw [← hc2]
    rfl
  have e5 : dropLit speedLit (speedLit ++ (ds ++ rest)) = some (ds ++ rest) :=
    (dropLit_eq_some _ _ _).mpr rfl
  have e6 : (takeRun Char.isDigit (ds ++ rest)).1 ≠ [] := by
    cases ds with
    | nil => exact absurd rfl hdne
    | cons d ds2 =>
      have hd : Char.isDigit d = true := hdd d (List.mem_cons_self d ds2)
      rw [List.cons_append]
      exact takeRun_cons_ne_nil _ _ _ hd
  simp only [hostnameSiteCode, e1, e2, if_neg hrne, e3, e4, if_neg hcne, e5,
    if_neg e6]

/-- Soundness of the matcher: an accepted hostname decomposes along the
naming convention, with the captured group as site code. -/
lemma followsConvention_of_hostnameSiteCode (h code : List Char)
    (hm : hostnameSiteCode h = some code) : followsConvention h code := by
  unfold hostnameSiteCode at hm
  cases he1 : dropLit keLit h with
  | none => rw [he1] at hm; exact Option.noConfusion hm
  | some r1 =>
    rw [he1] at hm
    dsimp only at hm
    obtain ⟨region, r2, hR⟩ : ∃ a b, takeRun Char.isUpper r1 = (a, b) :=
      ⟨_, _, rfl⟩
    rw [hR] at hm
    dsimp only at hm
    have h2 : region ++ r2 = r1 := by
      have := takeRun_eq_append Char.isUpper r1
      rwa [hR] at this
    have hrup : ∀ c ∈ region, Char.isUpper c = true := by
      have := takeRun_mem Char.isUpper r1
      rwa [hR] at this
    by_cases hr : region = []
    · rw [if_pos hr] at hm; exact Option.noConfusion hm
    · rw [if_neg hr] at hm
      cases he2 : dropLit schLit r2 with
      | none => rw [he2] at hm; exact Option.noConfusion hm
      | some r3 =>
        rw [he2] at hm
        dsimp only at hm
        obtain ⟨code0, c2, hC⟩ : ∃ a b, takeRun isCodeChar r3 = (a, b) :=
          ⟨_, _, rfl⟩
        rw [hC] at hm
        dsimp only at hm
        have h4 : code0 ++ c2 = r3 := by
          have := takeRun_eq_append isCodeChar r3
          rwa [hC] at this
        have hcch : ∀ c ∈ code0, isCodeChar c = true := by
          have := takeRun_mem isCodeChar r3
          rwa [hC] at this
        by_cases hcn : code0 = []
        · rw [if_pos hcn] at hm; exact Option.noConfusion hm
        · rw [if_neg hcn] at hm
          cases he3 : dropLit speedLit c2 with
          | none => rw [he3] at hm; exact Option.noConfusion hm
          | some r5 =>
            rw [he3] at hm
            dsimp only at hm
            obtain ⟨ds, rest, hD⟩ : ∃ a b, takeRun Char.isDigit r5 = (a, b) :=
              ⟨_, _, rfl⟩
            rw [hD] at hm
            dsimp only at hm
            have h6 : ds ++ rest = r5 := by
              have := takeRun_eq_append Char.isDigit r5
              rwa [hD] at this
            have hdd : ∀ c ∈ ds, Char.isDigit c = true := by
              have := takeRun_mem Char.isDigit r5
              rwa [hD] at this
            by_cases hdn : ds = []
            · rw [if_pos hdn] at hm; exact Option.noConfusion hm
            · rw [if_neg hdn] at hm
              have hcode : code0 = code := Option.some.inj hm
              subst hcode
              have h1 : h = keLit ++ r1 := (dropLit_eq_some keLit h r1).mp he1
              have h3 : r2 = schLit ++ r3 := (dropLit_eq_some _ _ _).mp he2
              have h5 : c2 = speedLit ++ r5 := (dropLit_eq_some _ _ _).mp he3
              refine ⟨region, ds, rest, ?_, hr, hrup, hcn, hcch, hdn, hdd⟩
              rw [h1, ← h2, h3, ← h4, h5, ← h6]
              simp [List.append_assoc]

/-! ## Claims -/

/-- C1: for every `download_mbps ≥ 0`, `upload_mbps ≥ 0` and positive
contracted speeds, the SLA Evaluator returns `sla_compliant = true` iff
`download_mbps / contracted_download ≥ 0.8` and
`upload_mbps / contracted_upload ≥ 0.8`; its `sla_deviation_pct` equals
`min (download_pct - 100) (upload_pct - 100)` with
`download_pct = download_mbps / contracted_download * 100` (and symmetric
upload percentage); and the deviation is positive exactly when the measured
speed exceeds the contracted speed on both axes. -/
theorem sla_evaluator_correct (cd cu d u : ℚ)
    (hcd : 0 < cd) (hcu : 0 < cu) (hd : 0 ≤ d) (hu : 0 ≤ u) :
    ((calculate_sla_metrics cd cu d u).sla_compliance = true ↔
      (8/10 : ℚ) ≤ d / cd ∧ (8/10 : ℚ) ≤ u / cu) ∧
    (calculate_sla_metrics cd cu d u).sla_deviation_pct =
      min (d / cd * 100 - 100) (u / cu * 100 - 100) ∧
    (0 < (calculate_sla_metrics cd cu d u).sla_deviation_pct ↔
      cd < d ∧ cu < u) := by
  rw [calculate_sla_metrics_pos cd cu d u hcd hcu]
  refine ⟨?_, rfl, ?_⟩
  · simp only [Bool.and_eq_true, decide_eq_true_eq, ge_iff_le]
    constructor
    · rintro ⟨h1, h2⟩
      exact ⟨by linarith, by linarith⟩
    · rintro ⟨h1, h2⟩
      exact ⟨by linarith, by linarith⟩
  · simp only [lt_min_iff]
    have e1 : 0 < d / cd * 100 - 100 ↔ 1 < d / cd := by
      constructor <;> intro h <;> linarith
    have e2 : 0 < u / cu * 100 - 100 ↔ 1 < u / cu := by
      constructor <;> intro h <;> linarith
    rw [e1, e2, one_lt_div hcd, one_lt_div hcu]

/-- Witness for C1 at the contracted speeds `100/20` and measurement
`95/19` (spec scenario C). -/
theorem sla_evaluator_correct_witness :
    ((calculate_sla_metrics 100 20 95 19).sla_compliance = true ↔
      (8/10 : ℚ) ≤ 95 / 100 ∧ (8/10 : ℚ) ≤ 19 / 20) ∧
    (calculate_sla_metrics 100 20 95 19).sla_deviation_pct =
      min ((95 : ℚ) / 100 * 100 - 100) ((19 : ℚ) / 20 * 100 - 100) ∧
    (0 < (calculate_sla_metrics 100 20 95 19).sla_deviation_pct ↔
      (100 : ℚ) < 95 ∧ (20 : ℚ) < 19) :=
  sla_evaluator_correct 100 20 95 19 (by norm_num) (by norm_num)
    (by norm_num) (by norm_num)

/-- C2: whenever the Ping Prober reports unreachable, the assembled record
has `error_code = 1`, zero throughput, absent `ping_ms`/`jitter_ms`,
`packet_loss_pct = 100.0` and `public_ip = "Unavailable"`, and the
Bandwidth Prober is not invoked on that cycle. -/
theorem unreachable_record (env : Env)
    (h : (check_ping env.pingOutcomes 3).reachable = false) :
    (mainRun env).row.ErrorCode = 1 ∧
    (mainRun env).dict.error_code = some 1 ∧
    (mainRun env).row.DownloadMbps = 0 ∧
    (mainRun env).row.UploadMbps = 0 ∧
    (mainRun env).row.PingMs = none ∧
    (mainRun env).row.JitterMs = none ∧
    (mainRun env).row.PacketLossPct = 100 ∧
    (mainRun env).row.IpAddress = "Unavailable" ∧
    (mainRun env).speed_test_invoked = false := by
  have hl := check_ping_go_loss_of_unreachable env.pingOutcomes 3 0 100 0 h
  rw [check_ping] at h
  simp [mainRun, check_ping, h, errorDict, buildRow, hl]

/-- Witness for C2: every ping attempt raises. -/
theorem unreachable_record_witness :
    (mainRun envDown).row.ErrorCode = 1 ∧
    (mainRun envDown).dict.error_code = some 1 ∧
    (mainRun envDown).row.DownloadMbps = 0 ∧
    (mainRun envDown).row.UploadMbps = 0 ∧
    (mainRun envDown).row.PingMs = none ∧
    (mainRun envDown).row.JitterMs = none ∧
    (mainRun envDown).row.PacketLossPct = 100 ∧
    (mainRun envDown).row.IpAddress = "Unavailable" ∧
    (mainRun envDown).speed_test_invoked = false :=
  unreachable_record envDown rfl

/-- C3: when the Ping Prober reports reachable but every speedtest attempt
fails, the Bandwidth Prober reports a failure naming the retry count and the
last cause (it does not crash), and the record has `error_code = 2` with the
throughput fields zero-filled identically to the unreachable case. -/
theorem speedtest_failure_record (env : Env)
    (hp : (check_ping env.pingOutcomes 3).reachable = true)
    (hs : ∀ n m, env.speedOutcomes n ≠ .ok m) :
    (∃ cause, (run_speed_test env.speedOutcomes 3).outcome =
      some (.error cause)) ∧
    (mainRun env).row.ErrorCode = 2 ∧
    (mainRun env).dict.error_code = some 2 ∧
    (mainRun env).row.DownloadMbps = 0 ∧
    (mainRun env).row.UploadMbps = 0 ∧
    (mainRun env).row.PingMs = none ∧
    (mainRun env).row.JitterMs = none ∧
    (mainRun env).row.TestDurationSec = 0 ∧
    (mainRun env).row.TestServer = "" ∧
    (mainRun env).row.TestServerIp = "" ∧
    (mainRun env).row.IpAddress = "Unavailable" ∧
    (∃ e, env.speedOutcomes 2 = .error e ∧
      (mainRun env).row.ErrorMessage =
        "Speed test failed: Speed test failed after 3 attempts: " ++ e) := by
  obtain ⟨e, he, h2⟩ := run_speed_test_go_all_err env.speedOutcomes hs 3 0 0 3
    (by omega)
  norm_num at he
  rw [check_ping] at hp
  have hrun : run_speed_test env.speedOutcomes 3 =
      ⟨some (.error ("Speed test failed after 3 attempts: " ++ e)), 3, 2⟩ := by
    rw [run_speed_test, h2]; rfl
  refine ⟨⟨_, by rw [hrun]⟩, ?_⟩
  simp [mainRun, check_ping, hp, hrun, reachableDict, errorDict, buildRow]
  exact ⟨e, he, rfl⟩

/-- Witness for C3: clean ping, every speedtest attempt raises. -/
theorem speedtest_failure_record_witness :
    (∃ cause, (run_speed_test envSpeedFail.speedOutcomes 3).outcome =
      some (.error cause)) ∧
    (mainRun envSpeedFail).row.ErrorCode = 2 ∧
    (mainRun envSpeedFail).dict.error_code = some 2 ∧
    (mainRun envSpeedFail).row.DownloadMbps = 0 ∧
    (mainRun envSpeedFail).row.UploadMbps = 0 ∧
    (mainRun envSpeedFail).row.PingMs = none ∧
    (mainRun envSpeedFail).row.JitterMs = none ∧
    (mainRun envSpeedFail).row.TestDurationSec = 0 ∧
    (mainRun envSpeedFail).row.TestServer = "" ∧
    (mainRun envSpeedFail).row.TestServerIp = "" ∧
    (mainRun envSpeedFail).row.IpAddress = "Unavailable" ∧
    (∃ e, envSpeedFail.speedOutcomes 2 = .error e ∧
      (mainRun envSpeedFail).row.ErrorMessage =
        "Speed test failed: Speed test failed after 3 attempts: " ++ e) :=
  speedtest_failure_record envSpeedFail rfl
    (fun _ _ h => Except.noConfusion h)

/-- C4: for every `max_attempts = N ≥ 1`, a permanently failing prober —
ping or bandwidth — performs exactly `N` attempts and `N - 1` sleeps (one
between consecutive attempts, none after the final one) before reporting
its terminal failure. -/
theorem retry_bound (po : ℕ → PingAttempt)
    (so : ℕ → Except String SpeedMeasurement) (N : ℕ) (hN : 1 ≤ N)
    (hp : ∀ n, po n = .err) (hs : ∀ n m, so n ≠ .ok m) :
    (check_ping po N).attempts_used = N ∧
    (check_ping po N).sleeps = N - 1 ∧
    (check_ping po N).reachable = false ∧
    (run_speed_test so N).attempts_used = N ∧
    (run_speed_test so N).sleeps = N - 1 := by
  obtain ⟨e, _, h2⟩ := run_speed_test_go_all_err so hs N 0 0 N hN
  rw [check_ping, check_ping_go_all_err po hp N 0 100 0,
    run_speed_test, h2]
  simp

/-- Witness for C4 at `N = 3` with an always-raising ping subprocess and an
always-raising speedtest. -/
theorem retry_bound_witness :
    (check_ping (fun _ => .err) 3).attempts_used = 3 ∧
    (check_ping (fun _ => .err) 3).sleeps = 3 - 1 ∧
    (check_ping (fun _ => .err) 3).reachable = false ∧
    (run_speed_test (fun _ => .error "configuration retrieval timed out")
      3).attempts_used = 3 ∧
    (run_speed_test (fun _ => .error "configuration retrieval timed out")
      3).sleeps = 3 - 1 :=
  retry_bound (fun _ => .err)
    (fun _ => .error "configuration retrieval timed out") 3
    (by omega) (fun _ => rfl) (fun _ _ h => Except.noConfusion h)

/-- C5: on a successful measurement the Result Assembler rounds
`download_mbps`, `upload_mbps`, `ping_ms`, `jitter_ms` and
`test_duration_sec` to 2 decimal places and evaluates the SLA on the rounded
download/upload; concretely, measuring 45.32/9.87 against contracted
100.0/20.0 gives percentages 45.32 and 49.35, `sla_compliant = false` and
`sla_deviation_pct = -54.68`. -/
theorem success_rounds_then_evaluates :
    (∀ (env : Env) (m : SpeedMeasurement),
      (check_ping env.pingOutcomes 3).reachable = true →
      env.speedOutcomes 0 = .ok m →
      (mainRun env).dict.download_mbps = round2 (m.download_bps / 1000000) ∧
      (mainRun env).dict.upload_mbps = round2 (m.upload_bps / 1000000) ∧
      (mainRun env).dict.ping_ms = some (round2 m.ping) ∧
      (mainRun env).dict.jitter_ms = some (round2 (m.jitter.getD 0)) ∧
      (mainRun env).dict.test_duration_sec = round2 m.duration ∧
      (mainRun env).dict.sla = some (calculate_sla_metrics
        CONTRACTED_DOWNLOAD_MBPS CONTRACTED_UPLOAD_MBPS
        (round2 (m.download_bps / 1000000))
        (round2 (m.upload_bps / 1000000)))) ∧
    ((mainRun envB).row.DownloadMbps = 1133/25 ∧
     (mainRun envB).row.UploadMbps = 987/100 ∧
     sla_percentage CONTRACTED_DOWNLOAD_MBPS (1133/25) = 1133/25 ∧
     sla_percentage CONTRACTED_UPLOAD_MBPS (987/100) = 987/20 ∧
     (mainRun envB).row.SlaCompliance = false ∧
     (mainRun envB).row.SlaDeviationPct = -1367/25) := by
  constructor
  · intro env m hp hm
    rw [mainRun_dict_success env m hp hm]
    exact ⟨rfl, rfl, rfl, rfl, rfl, rfl⟩
  · have hdict := mainRun_dict_success envB mB rfl rfl
    have hd : round2 ((45320000 : ℚ) / 1000000) = 1133/25 := by
      rw [round2_of_mul_eq_intCast _ 4532 (by norm_num)]; norm_num
    have hu : round2 ((9870000 : ℚ) / 1000000) = 987/100 := by
      rw [round2_of_mul_eq_intCast _ 987 (by norm_num)]; norm_num
    have hsla : calculate_sla_metrics CONTRACTED_DOWNLOAD_MBPS
        CONTRACTED_UPLOAD_MBPS (1133/25) (987/100) =
        { contracted_download_mbps := 100, contracted_upload_mbps := 20,
          sla_compliance := false, sla_deviation_pct := -1367/25 } := by
      rw [CONTRACTED_DOWNLOAD_MBPS, CONTRACTED_UPLOAD_MBPS,
        calculate_sla_metrics_pos 100 20 _ _ (by norm_num) (by norm_num)]
      have e1 : (1133:ℚ)/25/100*100 = 1133/25 := by norm_num
      have e2 : (987:ℚ)/100/20*100 = 987/20 := by norm_num
      rw [e1, e2]
      congr 1
      · rw [Bool.and_eq_false_iff]
        left
        rw [decide_eq_false_iff_not]
        norm_num
      · rw [min_eq_left (by norm_num)]
        norm_num
    refine ⟨?_, ?_, ?_, ?_, ?_, ?_⟩
    · rw [mainRun_row, hdict]
      show round2 (speedDataOf mB).download_mbps = 1133/25
      rw [show (speedDataOf mB).download_mbps = (45320000 : ℚ) / 1000000
        from rfl, hd]
    · rw [mainRun_row, hdict]
      show round2 (speedDataOf mB).upload_mbps = 987/100
      rw [show (speedDataOf mB).upload_mbps = (9870000 : ℚ) / 1000000
        from rfl, hu]
    · rw [CONTRACTED_DOWNLOAD_MBPS]; norm_num [sla_percentage]
    · rw [CONTRACTED_UPLOAD_MBPS]; norm_num [sla_percentage]
    · rw [mainRun_row, hdict]
      show (calculate_sla_metrics CONTRACTED_DOWNLOAD_MBPS
        CONTRACTED_UPLOAD_MBPS (round2 (speedDataOf mB).download_mbps)
        (round2 (speedDataOf mB).upload_mbps)).sla_compliance = false
      rw [show (speedDataOf mB).download_mbps = (45320000 : ℚ) / 1000000
        from rfl,
        show (speedDataOf mB).upload_mbps = (9870000 : ℚ) / 1000000 from rfl,
        hd, hu, hsla]
    · rw [mainRun_row, hdict]
      show (calculate_sla_metrics CONTRACTED_DOWNLOAD_MBPS
        CONTRACTED_UPLOAD_MBPS (round2 (speedDataOf mB).download_mbps)
        (round2 (speedDataOf mB).upload_mbps)).sla_deviation_pct = -1367/25
      rw [show (speedDataOf mB).download_mbps = (45320000 : ℚ) / 1000000
        from rfl,
        show (speedDataOf mB).upload_mbps = (9870000 : ℚ) / 1000000 from rfl,
        hd, hu, hsla]

/-- Witness for C5: the general rounding statement instantiated on the
scenario-B cycle. -/
theorem success_rounds_then_evaluates_witness :
    (mainRun envB).dict.download_mbps = round2 (mB.download_bps / 1000000) ∧
    (mainRun envB).dict.upload_mbps = round2 (mB.upload_bps / 1000000) ∧
    (mainRun envB).dict.ping_ms = some (round2 mB.ping) ∧
    (mainRun envB).dict.jitter_ms = some (round2 (mB.jitter.getD 0)) ∧
    (mainRun envB).dict.test_duration_sec = round2 mB.duration ∧
    (mainRun envB).dict.sla = some (calculate_sla_metrics
      CONTRACTED_DOWNLOAD_MBPS CONTRACTED_UPLOAD_MBPS
      (round2 (mB.download_bps / 1000000))
      (round2 (mB.upload_bps / 1000000))) :=
  success_rounds_then_evaluates.1 envB mB rfl rfl

/-- C6: the Location Resolver is total by construction; on a failed request
it returns exactly the zero-valued default, a `"loc"` value that fails to
parse also yields the default, and the geolocation fields of every final
record equal the resolver output on every path, independent of
`error_code`. -/
theorem geolocation_always_populated :
    (∀ env : Env,
      (mainRun env).row.Latitude = (get_location env.geoResponse).latitude ∧
      (mainRun env).row.Longitude = (get_location env.geoResponse).longitude ∧
      (mainRun env).row.City = (get_location env.geoResponse).city ∧
      (mainRun env).row.Region = (get_location env.geoResponse).region ∧
      (mainRun env).row.ISPName = (get_location env.geoResponse).org) ∧
    get_location none = default_location ∧
    (∀ d : GeoResponse, d.loc = some none →
      get_location (some d) = default_location) ∧
    default_location =
      { latitude := 0, longitude := 0, city := "", region := "",
        org := "" } := by
  refine ⟨fun env => ?_, rfl, fun d hd => ?_, rfl⟩
  · rw [mainRun_row]
    exact ⟨rfl, rfl, rfl, rfl, rfl⟩
  · simp [get_location, hd]

/-- Witness for C6: the unreachable cycle with a failed geolocation request,
and a response whose `"loc"` value fails to parse. -/
theorem geolocation_always_populated_witness :
    ((mainRun envDown).row.Latitude =
        (get_location envDown.geoResponse).latitude ∧
      (mainRun envDown).row.Longitude =
        (get_location envDown.geoResponse).longitude ∧
      (mainRun envDown).row.City = (get_location envDown.geoResponse).city ∧
      (mainRun envDown).row.Region =
        (get_location envDown.geoResponse).region ∧
      (mainRun envDown).row.ISPName =
        (get_location envDown.geoResponse).org) ∧
    get_location none = default_location ∧
    get_location (some ⟨some none, some "Nairobi", none, none⟩) =
      default_location ∧
    default_location =
      { latitude := 0, longitude := 0, city := "", region := "",
        org := "" } :=
  ⟨geolocation_always_populated.1 envDown,
   geolocation_always_populated.2.1,
   geolocation_always_populated.2.2.1 ⟨some none, some "Nairobi", none, none⟩
     rfl,
   geolocation_always_populated.2.2.2⟩

/-- C7: a device identifier following the naming convention
`KE-<region-code>-SCH-<site-code>-SPEED<digits>` (with trailing characters
allowed, as `re.match` is a prefix match) yields the site name
`School-<site-code>`; any other identifier is returned verbatim. -/
theorem site_name_follows_convention (h : List Char) :
    (∃ code, followsConvention h code ∧
      get_school_name (String.mk h) = "School-" ++ String.mk code) ∨
    ((∀ code, ¬ followsConvention h code) ∧
      get_school_name (String.mk h) = String.mk h) := by
  cases hm : hostnameSiteCode h with
  | some code =>
    left
    refine ⟨code, followsConvention_of_hostnameSiteCode h code hm, ?_⟩
    simp [get_school_name, hm]
  | none =>
    right
    refine ⟨fun code hc => ?_, ?_⟩
    · have hx := hostnameSiteCode_of_followsConvention h code hc
      rw [hm] at hx
      exact Option.noConfusion hx
    · simp [get_school_name, hm]

/-- Counterexample to C8 as stated: the first ping attempt completes but its
output has no parsable loss percentage, and the second attempt would parse a
0% loss; yet `check_ping` stops after one attempt (it does not proceed to
the next attempt) and reports `reachable = true` with the default loss. -/
theorem ping_parse_retry_counterexample :
    (check_ping (fun n => if n = 0 then PingAttempt.ok none
      else PingAttempt.ok (some 0)) 3).attempts_used = 1 ∧
    (check_ping (fun n => if n = 0 then PingAttempt.ok none
      else PingAttempt.ok (some 0)) 3).reachable = true ∧
    (check_ping (fun n => if n = 0 then PingAttempt.ok none
      else PingAttempt.ok (some 0)) 3).packet_loss = 100 :=
  ⟨rfl, rfl, rfl⟩

/-- C8 (amended): when a ping attempt completes but its output cannot be
parsed for a loss percentage, the Ping Prober does not crash and does not
retry: it immediately reports `reachable = true` with the packet-loss value
left at its default 100.0, after exactly one attempt and no sleep. -/
theorem ping_parse_failure_no_retry (outcomes : ℕ → PingAttempt) (r : ℕ)
    (h0 : outcomes 0 = .ok none) :
    check_ping outcomes (r + 1) = ⟨true, 100, 1, 0⟩ := by
  rw [check_ping, check_ping_go, h0]
  rfl

/-- Witness for the amended C8 at `retries = 3`. -/
theorem ping_parse_failure_no_retry_witness :
    check_ping (fun n => if n = 0 then PingAttempt.ok none
      else PingAttempt.ok (some 0)) 3 = ⟨true, 100, 1, 0⟩ :=
  ping_parse_failure_no_retry _ 2 rfl

/-- Counterexample to C9 as stated: in a successfully measured cycle whose
measurement protocol exposes no jitter, the record carries
`jitter_ms = 0.0` — a numeric sentinel — instead of being absent. -/
theorem jitter_absent_counterexample :
    mB.jitter = none ∧
    (mainRun envB).row.JitterMs = some 0 ∧
    (mainRun envB).row.JitterMs ≠ none := by
  have hdict := mainRun_dict_success envB mB rfl rfl
  have hz : round2 ((0:ℚ)) = 0 := by
    rw [round2_of_mul_eq_intCast _ 0 (by norm_num)]
    norm_num
  refine ⟨rfl, ?_, ?_⟩
  · rw [mainRun_row, hdict]
    show some (round2 (speedDataOf mB).jitter_ms) = some 0
    rw [show (speedDataOf mB).jitter_ms = (0:ℚ) from rfl, hz]
  · rw [mainRun_row, hdict]
    show some (round2 (speedDataOf mB).jitter_ms) ≠ none
    simp

/-- C9 (amended): in every successfully measured record `ping_ms` and
`jitter_ms` are present; when the protocol exposes no jitter, `jitter_ms`
is the numeric default 0.0 (rounded) rather than absent. -/
theorem jitter_numeric_default (env : Env) (m : SpeedMeasurement)
    (hp : (check_ping env.pingOutcomes 3).reachable = true)
    (hm : env.speedOutcomes 0 = .ok m) :
    (mainRun env).row.PingMs = some (round2 m.ping) ∧
    (mainRun env).row.JitterMs = some (round2 (m.jitter.getD 0)) ∧
    (m.jitter = none → (mainRun env).row.JitterMs = some (round2 0)) := by
  have hdict := mainRun_dict_success env m hp hm
  refine ⟨?_, ?_, fun hj => ?_⟩
  · rw [mainRun_row, hdict]; rfl
  · rw [mainRun_row, hdict]; rfl
  · rw [mainRun_row, hdict]
    show some (round2 (m.jitter.getD 0)) = some (round2 0)
    rw [hj]
    rfl

/-- Witness for the amended C9 on the scenario-B cycle. -/
theorem jitter_numeric_default_witness :
    (mainRun envB).row.PingMs = some (round2 mB.ping) ∧
    (mainRun envB).row.JitterMs = some (round2 (mB.jitter.getD 0)) ∧
    (mB.jitter = none → (mainRun envB).row.JitterMs = some (round2 0)) :=
  jitter_numeric_default envB mB rfl rfl

/-- Counterexample to C10 as stated: on the unreachable path
(`error_code = 1`) the assembled record carries contracted speeds 0.0 — the
`result.get(key, 0.0)` defaults — not the configured constants 100.0/20.0. -/
theorem contracted_constants_counterexample :
    (mainRun envDown).row.ErrorCode = 1 ∧
    (mainRun envDown).row.ContractedDownloadMbps = 0 ∧
    (mainRun envDown).row.ContractedUploadMbps = 0 ∧
    (mainRun envDown).row.ContractedDownloadMbps ≠ CONTRACTED_DOWNLOAD_MBPS ∧
    (mainRun envDown).row.ContractedUploadMbps ≠ CONTRACTED_UPLOAD_MBPS := by
  have hdict : (mainRun envDown).dict = errorDict ⟨false, 100, 3, 2⟩ 1
      "No internet connection" := by
    have hping : check_ping envDown.pingOutcomes 3 = ⟨false, 100, 3, 2⟩ := rfl
    simp [mainRun, hping, errorDict]
  refine ⟨?_, ?_, ?_, ?_, ?_⟩ <;> rw [mainRun_row, hdict]
  · rfl
  · rfl
  · rfl
  · show (0:ℚ) ≠ CONTRACTED_DOWNLOAD_MBPS
    rw [CONTRACTED_DOWNLOAD_MBPS]; norm_num
  · show (0:ℚ) ≠ CONTRACTED_UPLOAD_MBPS
    rw [CONTRACTED_UPLOAD_MBPS]; norm_num

/-- C10 (amended): only successfully measured records carry the configured
contracted constants 100.0/20.0; on the `error_code = 1` and
`error_code = 2` paths both contracted fields default to 0.0. -/
theorem contracted_fields_by_path :
    (∀ (env : Env) (m : SpeedMeasurement),
      (check_ping env.pingOutcomes 3).reachable = true →
      env.speedOutcomes 0 = .ok m →
      (mainRun env).row.ContractedDownloadMbps = CONTRACTED_DOWNLOAD_MBPS ∧
      (mainRun env).row.ContractedUploadMbps = CONTRACTED_UPLOAD_MBPS) ∧
    (∀ env : Env, (check_ping env.pingOutcomes 3).reachable = false →
      (mainRun env).row.ContractedDownloadMbps = 0 ∧
      (mainRun env).row.ContractedUploadMbps = 0) ∧
    (∀ env : Env, (check_ping env.pingOutcomes 3).reachable = true →
      (∀ n m, env.speedOutcomes n ≠ .ok m) →
      (mainRun env).row.ContractedDownloadMbps = 0 ∧
      (mainRun env).row.ContractedUploadMbps = 0) := by
  refine ⟨fun env m hp hm => ?_, fun env h => ?_, fun env hp hs => ?_⟩
  · have hdict := mainRun_dict_success env m hp hm
    rw [mainRun_row, hdict]
    exact ⟨rfl, rfl⟩
  · have hdict : (mainRun env).dict =
        errorDict (check_ping env.pingOutcomes 3) 1 "No internet connection" := by
      simp [mainRun, h]
    rw [mainRun_row, hdict]
    exact ⟨rfl, rfl⟩
  · obtain ⟨e, he, h2⟩ := run_speed_test_go_all_err env.speedOutcomes hs 3 0 0 3
      (by omega)
    have hrun : run_speed_test env.speedOutcomes 3 =
        ⟨some (.error ("Speed test failed after 3 attempts: " ++ e)), 3, 2⟩ := by
      rw [run_speed_test, h2]; rfl
    have hdict : (mainRun env).dict = errorDict (check_ping env.pingOutcomes 3)
        2 ("Speed test failed: " ++
          ("Speed test failed after 3 attempts: " ++ e)) := by
      simp [mainRun, hp, hrun, reachableDict]
    rw [mainRun_row, hdict]
    exact ⟨rfl, rfl⟩

/-- Witness for the amended C10 on a successful, an unreachable, and a
speedtest-failing cycle. -/
theorem contracted_fields_by_path_witness :
    ((mainRun envB).row.ContractedDownloadMbps = CONTRACTED_DOWNLOAD_MBPS ∧
      (mainRun envB).row.ContractedUploadMbps = CONTRACTED_UPLOAD_MBPS) ∧
    ((mainRun envDown).row.ContractedDownloadMbps = 0 ∧
      (mainRun envDown).row.ContractedUploadMbps = 0) ∧
    ((mainRun envSpeedFail).row.ContractedDownloadMbps = 0 ∧
      (mainRun envSpeedFail).row.ContractedUploadMbps = 0) :=
  ⟨contracted_fields_by_path.1 envB mB rfl rfl,
   contracted_fields_by_path.2.1 envDown rfl,
   contracted_fields_by_path.2.2 envSpeedFail rfl
     (fun _ _ h => Except.noConfusion h)⟩

end Sabio
